import Mathlib

/-!
Verification of the stackdriver-errors error reporting client
(src/stackdriver-errors.js): a shallow embedding of the error resolution
and delivery pipeline, together with theorems about its behaviour.

Modelling conventions:
  - JavaScript values that may be undefined are Option values; where the
    source concatenates such a value into a string, the stringification
    maps none to "undefined".
  - JavaScript truthiness on strings treats undefined and "" as falsy.
  - The external stack resolution capability (StackTrace.fromError) is an
    input of type Except String (List StackFrame): ok with the frame list
    on success, error with the rejection reason on failure.
  - The XMLHttpRequest status is a Nat, with 0 standing for a network
    failure that produced no HTTP status (as in the browser API).
  - Promise settlement is modelled by explicit outcome types; the mutable
    reporter object is threaded through report explicitly.
-/

namespace StackdriverErrors

/-- Stringification of a possibly-undefined JavaScript string value:
concatenating undefined into a string yields "undefined". -/
def jsStr : Option String → String
  | none => "undefined"
  | some s => s

/-- JavaScript truthiness of a possibly-undefined string value: undefined
and the empty string are falsy. -/
def truthyStr : Option String → Bool
  | none => false
  | some s => s != ""

/-- Split of a character list at every occurrence of the separator. -/
def splitCharList (sep : Char) : List Char → List (List Char)
  | [] => [[]]
  | c :: cs =>
    match splitCharList sep cs with
    | [] => [[]]
    | h :: t => if c == sep then [] :: h :: t else (c :: h) :: t

/-- JavaScript String.prototype.split with a one-character separator (the
source only splits on "/" and "?"): "" splits to a single empty segment,
and a separator at either end yields an empty segment there. -/
def jsSplit (sep : Char) (s : String) : List String :=
  (splitCharList sep s.data).map (fun cs => String.mk cs)

/-- JavaScript x or-else d for a possibly-undefined number, as in
options.skipLocalFrames or-else 1: undefined and 0 are falsy. -/
def jsOrNat : Option Nat → Nat → Nat
  | none, d => d
  | some n, d => if n == 0 then d else n

/-- One resolved stack frame as produced by the stack resolution capability.
getFunctionName may return null (none here); file, line and column are the
values read by getFileName, getLineNumber and getColumnNumber. -/
structure StackFrame where
  functionName : Option String
  fileName : String
  lineNumber : Nat
  columnNumber : Nat
deriving Repr, DecidableEq

/-- The source expression getFunctionName() or-else the anonymous sentinel:
null and the empty string are falsy in JavaScript. -/
def functionNameOrAnonymous (f : Option String) : String :=
  match f with
  | none => "<anonymous>"
  | some s => if s == "" then "<anonymous>" else s

/-- An exception-like raw error: str is its toString() form; file, line and
column are the stringifications of the fields of the same name that the
raw error itself may carry ("undefined" when absent). -/
structure ExnLike where
  str : String
  file : String
  line : String
  column : String
deriving Repr, DecidableEq

/-- The raw input to report: a plain string message or an exception-like
object. -/
inductive RawError where
  | str (s : String)
  | exn (e : ExnLike)
deriving Repr, DecidableEq

/-- JavaScript truthiness of the report input: undefined and null (none)
and the empty string are falsy; objects are always truthy. -/
def rawErrorTruthy : Option RawError → Bool
  | none => false
  | some (.str s) => s != ""
  | some (.exn _) => true

/-- String inputs are promoted by throwing and catching new Error(s): the
caught error stringifies to "Error: " followed by s and carries no
file, line or column fields of its own. -/
def promoteString (s : String) : ExnLike :=
  { str := "Error: " ++ s
    file := "undefined"
    line := "undefined"
    column := "undefined" }

/-- The exception-like object actually resolved by report: string inputs
are promoted, exception inputs pass through. -/
def promote : RawError → ExnLike
  | .str s => promoteString s
  | .exn e => e

/-- The report location record built from the first kept frame. -/
structure ReportLocation where
  filePath : String
  lineNumber : Nat
  functionName : String
deriving Repr, DecidableEq

/-- The reportLocation slot of the context: absent (never written), the
empty object written by the degraded resolution path, or a real location. -/
inductive JsLocation where
  | undef
  | empty
  | loc (l : ReportLocation)
deriving Repr, DecidableEq

/-- The ambient request information injected into the context. -/
structure HttpRequest where
  userAgent : String
  url : String
deriving Repr, DecidableEq

/-- The mutable shared context owned by the reporter. -/
structure Context where
  user : Option String
  httpRequest : Option HttpRequest
  reportLocation : JsLocation
deriving Repr, DecidableEq

/-- The empty object used as the default context when none is configured. -/
def Context.emptyCtx : Context :=
  { user := none, httpRequest := none, reportLocation := .undef }

/-- The immutable service context built at start. -/
structure ServiceContext where
  service : String
  version : Option String
deriving Repr, DecidableEq

/-- The wire payload assembled by report. -/
structure Payload where
  serviceContext : ServiceContext
  context : Context
  message : String
deriving Repr, DecidableEq

/-- The reporter object after start: the fields stored by
StackdriverErrorReporter.prototype.start. The custom reporting function is
modelled by the Bool recording whether one is configured. -/
structure Reporter where
  customReportingFunction : Bool
  customMessageTranslator : Option (String → String)
  apiKey : Option String
  projectId : Option String
  targetUrl : Option String
  context : Context
  basePath : Option String
  serviceContext : ServiceContext
  reportUncaughtExceptions : Bool
  reportUnhandledPromiseRejections : Bool
  disabled : Bool

/-- The init configuration object passed to start. Boolean flags are
Option Bool so that absent, true and false are distinguished, as the
source distinguishes them (strict comparison with false, double
negation). -/
structure Config where
  key : Option String
  projectId : Option String
  targetUrl : Option String
  customReportingFunction : Bool
  customMessageTranslator : Option (String → String)
  context : Option Context
  basePath : Option String
  service : Option String
  version : Option String
  reportUncaughtExceptions : Option Bool
  reportUnhandledPromiseRejections : Option Bool
  disabled : Option Bool

/-- The source expression config.flag !== false: true unless explicitly
false. -/
def flagDefaultTrue : Option Bool → Bool
  | some false => false
  | _ => true

/-- The source expression !!config.disabled: false unless explicitly
truthy. -/
def flagDefaultFalse : Option Bool → Bool
  | some true => true
  | _ => false

/-- URL endpoint of the Stackdriver Error Reporting report API. -/
def baseAPIUrl : String :=
  "https://clouderrorreporting.googleapis.com/v1beta1/projects/"

/-- StackdriverErrorReporter.prototype.start: validates the configuration
and stores its fields. A thrown configuration error is the error case of
the Except. Global hook installation has no effect on the reporter state
modelled here. -/
def start (config : Config) : Except String Reporter :=
  if !truthyStr config.key && !truthyStr config.targetUrl &&
      !config.customReportingFunction then
    .error "Cannot initialize: No API key, target url or custom reporting function provided."
  else if !truthyStr config.projectId && !truthyStr config.targetUrl &&
      !config.customReportingFunction then
    .error "Cannot initialize: No project ID, target url or custom reporting function provided."
  else
    .ok
      { customReportingFunction := config.customReportingFunction
        customMessageTranslator := config.customMessageTranslator
        apiKey := config.key
        projectId := config.projectId
        targetUrl := config.targetUrl
        context := config.context.getD Context.emptyCtx
        basePath := config.basePath
        serviceContext :=
          { service := if truthyStr config.service then jsStr config.service else "web"
            version := if truthyStr config.version then config.version else none }
        reportUncaughtExceptions := flagDefaultTrue config.reportUncaughtExceptions
        reportUnhandledPromiseRejections := flagDefaultTrue config.reportUnhandledPromiseRejections
        disabled := flagDefaultFalse config.disabled }

/-- Whether start throws. -/
def startThrows (config : Config) : Bool :=
  match start config with
  | .error _ => true
  | .ok _ => false

/-- The outcome of sendErrorPayload: the promise resolves with an object
holding the payload message, or rejects either with the plain
rate-limiting object (which is not an Error) or with a generic Error. -/
inductive SendResult where
  | resolved (message : String)
  | rejectedRateLimit (message nm : String)
  | rejectedError (message : String)
deriving Repr, DecidableEq

/-- sendErrorPayload response classification: the handler run when the
request reaches readyState 4 with the given status (0 stands for a network
failure with no HTTP status). -/
def sendErrorPayload (payload : Payload) (status : Nat) : SendResult :=
  if 200 ≤ status ∧ status < 300 then
    .resolved payload.message
  else if status == 429 then
    .rejectedRateLimit "quota or rate limiting error on stackdriver report" "Http429FakeError"
  else if status != 0 then
    .rejectedError (toString status ++ " http response on stackdriver report")
  else
    .rejectedError "network error on stackdriver report"

/-- The settlement of the promise returned by resolveError: ok when it
fulfills with a message and a location value, thrown when the fulfillment
handler itself throws (indexing a frame past the end of the stack), which
rejects the promise since the rejection handler of the same then call does
not catch it. -/
inductive ResolveResult where
  | ok (message : String) (location : JsLocation)
  | thrown
deriving Repr, DecidableEq

/-- The line pushed for each kept stack frame in resolveError. -/
def formatFrameLine (f : StackFrame) : String :=
  "    at " ++ functionNameOrAnonymous f.functionName ++ " (" ++ f.fileName ++ ":" ++
    toString f.lineNumber ++ ":" ++ toString f.columnNumber ++ ")"

/-- The file path of the report location in resolveError: split the frame
file name on "/", keep the segments from index 3 on with anything after
"?" stripped, rejoin and prefix with the base path and "/". -/
def locationFilePath (fileBasePath : Option String) (frameFileName : String) : String :=
  let filePathList := jsSplit '/' frameFileName
  let fileName := (filePathList.drop 3).map (fun seg => (jsSplit '?' seg).headD "")
  jsStr fileBasePath ++ "/" ++ String.intercalate "/" fileName

/-- resolveError: on successful stack resolution builds the message from
the error string form and one formatted line per frame from
firstFrameIndex on, joined with the two-character sequence backslash-n,
and the location from the frame at firstFrameIndex; when that frame does
not exist the handler throws. On failed resolution it fulfills with the
degraded message (joined with real newlines) and the empty object as
location. -/
def resolveError (err : ExnLike) (firstFrameIndex : Nat) (fileBasePath : Option String)
    (stackRes : Except String (List StackFrame)) : ResolveResult :=
  match stackRes with
  | .ok stack =>
    match stack[firstFrameIndex]? with
    | some frame =>
      .ok (String.intercalate "\\n" (err.str :: (stack.drop firstFrameIndex).map formatFrameLine))
        (.loc
          { filePath := locationFilePath fileBasePath frame.fileName
            lineNumber := frame.lineNumber
            functionName := functionNameOrAnonymous frame.functionName })
    | none => .thrown
  | .error reason =>
    .ok ("Error extracting stack trace: " ++ reason ++ "\n" ++ err.str ++ "\n" ++
      "    (" ++ err.file ++ ":" ++ err.line ++ ":" ++ err.column ++ ")") .empty

/-- The settlement of the promise returned by report, up to the transport
response (the transport classification itself is sendErrorPayload):
resolvedNull for the disabled short-circuit, rejectedNoError for the
falsy-input rejection, rejectedThrown when resolveError rejected,
customDelivered when the custom reporting function was called with the
payload, httpSent when sendErrorPayload was called with the url and
payload. -/
inductive ReportOutcome where
  | resolvedNull
  | rejectedNoError (message : String)
  | rejectedThrown
  | customDelivered (payload : Payload)
  | httpSent (url : String) (payload : Payload)
deriving Repr, DecidableEq

/-- The payload handed to the selected delivery path, when one was. -/
def outcomePayload : ReportOutcome → Option Payload
  | .customDelivered p => some p
  | .httpSent _ p => some p
  | _ => none

/-- The firstFrameIndex computed by report: it starts at 0 and is set to
options.skipLocalFrames or-else 1 only inside the string-promotion
branch. -/
def firstFrameIndexOf (err : RawError) (skipLocalFrames : Option Nat) : Nat :=
  match err with
  | .str _ => jsOrNat skipLocalFrames 1
  | .exn _ => 0

/-- The report url computed by report: the target url when truthy,
otherwise the API url derived from the project id and API key. -/
def reportUrlOf (r : Reporter) : String :=
  if truthyStr r.targetUrl then jsStr r.targetUrl
  else baseAPIUrl ++ jsStr r.projectId ++ "/events:report?key=" ++ jsStr r.apiKey

/-- The message translator application in report. -/
def applyTranslator (r : Reporter) (message : String) : String :=
  match r.customMessageTranslator with
  | some t => t message
  | none => message

/-- StackdriverErrorReporter.prototype.report. Inputs beyond the source
signature model the ambient environment: userAgent and href are the
values of window.navigator.userAgent and window.location.href read when
the payload shell is built; stackRes is the settlement of
StackTrace.fromError for the resolved error. The returned Reporter is the
reporter after the in-place mutations of its shared context. -/
def report (r : Reporter) (err : Option RawError) (skipLocalFrames : Option Nat)
    (userAgent href : String) (stackRes : Except String (List StackFrame)) :
    ReportOutcome × Reporter :=
  if r.disabled then (.resolvedNull, r)
  else if rawErrorTruthy err = false then (.rejectedNoError "no error to report", r)
  else
    match err with
    | none => (.rejectedNoError "no error to report", r)
    | some e0 =>
      let ctx1 : Context :=
        { r.context with httpRequest := some { userAgent := userAgent, url := href } }
      let e := promote e0
      let firstFrameIndex := firstFrameIndexOf e0 skipLocalFrames
      let reportUrl := reportUrlOf r
      match resolveError e firstFrameIndex r.basePath stackRes with
      | .thrown => (.rejectedThrown, { r with context := ctx1 })
      | .ok message location =>
        let msg := applyTranslator r message
        if r.customReportingFunction then
          (.customDelivered
            { serviceContext := r.serviceContext, context := ctx1, message := msg },
            { r with context := ctx1 })
        else
          let ctx2 : Context := { ctx1 with reportLocation := location }
          (.httpSent reportUrl
            { serviceContext := r.serviceContext, context := ctx2, message := msg },
            { r with context := ctx2 })

/-- StackdriverErrorReporter.prototype.setUser: writes the user field of
the shared context. -/
def setUser (r : Reporter) (user : Option String) : Reporter :=
  { r with context := { r.context with user := user } }

/-! Concrete fixtures used by witnesses. -/

/-- The default service context. -/
def svcWeb : ServiceContext := { service := "web", version := none }

/-- A sample payload. -/
def testPayload : Payload :=
  { serviceContext := svcWeb, context := Context.emptyCtx, message := "m" }

/-- A started reporter with API key and project id, no custom function. -/
def rEnabled : Reporter :=
  { customReportingFunction := false
    customMessageTranslator := none
    apiKey := some "k"
    projectId := some "p"
    targetUrl := none
    context := Context.emptyCtx
    basePath := some "base"
    serviceContext := svcWeb
    reportUncaughtExceptions := true
    reportUnhandledPromiseRejections := true
    disabled := false }

/-- The same reporter, disabled. -/
def rDisabled : Reporter := { rEnabled with disabled := true }

/-- The same reporter with a custom reporting function configured. -/
def rCustom : Reporter := { rEnabled with customReportingFunction := true }

/-- A sample exception-like error. -/
def exnBoom : ExnLike :=
  { str := "Error: boom", file := "f.js", line := "3", column := "7" }

/-- A sample stack frame with a query string in its file name. -/
def frameA : StackFrame :=
  { functionName := some "a"
    fileName := "https://x/y/z/app.js?v=1"
    lineNumber := 10
    columnNumber := 2 }

/-- A sample stack frame with no function name. -/
def frameB : StackFrame :=
  { functionName := none
    fileName := "https://x/y/z/lib/util.js"
    lineNumber := 20
    columnNumber := 3 }

/-- The message resolveError builds for exnBoom over the stack
(frameA, frameB) with first frame index 0. -/
def msgAB : String :=
  "Error: boom\\n    at a (https://x/y/z/app.js?v=1:10:2)\\n    at <anonymous> (https://x/y/z/lib/util.js:20:3)"

/-- The location resolveError builds from frameA under base path "base". -/
def locA : JsLocation :=
  .loc { filePath := "base/y/z/app.js", lineNumber := 10, functionName := "a" }

/-! Helper lemmas: the value of report in each branch past the input
checks. -/

/-- Unfolding of report when resolveError rejects. -/
theorem report_eq_of_thrown (r : Reporter) (e0 : RawError) (skip : Option Nat)
    (ua href : String) (sr : Except String (List StackFrame))
    (hd : r.disabled = false) (ht : rawErrorTruthy (some e0) = true)
    (hres : resolveError (promote e0) (firstFrameIndexOf e0 skip) r.basePath sr = .thrown) :
    report r (some e0) skip ua href sr =
      (.rejectedThrown,
       { r with context :=
          { r.context with httpRequest := some { userAgent := ua, url := href } } }) := by
  simp [report, hd, ht, hres]

/-- Unfolding of report on the custom reporting function path. -/
theorem report_eq_of_ok_custom (r : Reporter) (e0 : RawError) (skip : Option Nat)
    (ua href : String) (sr : Except String (List StackFrame)) (message : String)
    (location : JsLocation)
    (hd : r.disabled = false) (ht : rawErrorTruthy (some e0) = true)
    (hcf : r.customReportingFunction = true)
    (hres : resolveError (promote e0) (firstFrameIndexOf e0 skip) r.basePath sr =
      .ok message location) :
    report r (some e0) skip ua href sr =
      (.customDelivered
        { serviceContext := r.serviceContext
          context := { r.context with httpRequest := some { userAgent := ua, url := href } }
          message := applyTranslator r message },
       { r with context :=
          { r.context with httpRequest := some { userAgent := ua, url := href } } }) := by
  simp [report, hd, ht, hcf, hres]

/-- Unfolding of report on the HTTP transport path. -/
theorem report_eq_of_ok_http (r : Reporter) (e0 : RawError) (skip : Option Nat)
    (ua href : String) (sr : Except String (List StackFrame)) (message : String)
    (location : JsLocation)
    (hd : r.disabled = false) (ht : rawErrorTruthy (some e0) = true)
    (hcf : r.customReportingFunction = false)
    (hres : resolveError (promote e0) (firstFrameIndexOf e0 skip) r.basePath sr =
      .ok message location) :
    report r (some e0) skip ua href sr =
      (.httpSent (reportUrlOf r)
        { serviceContext := r.serviceContext
          context :=
            { r.context with
              httpRequest := some { userAgent := ua, url := href }
              reportLocation := location }
          message := applyTranslator r message },
       { r with context :=
          { r.context with
            httpRequest := some { userAgent := ua, url := href }
            reportLocation := location } }) := by
  simp [report, hd, ht, hcf, hres]

/-! Claim theorems. -/

/-- C1: if the reporter is disabled, report resolves with null and leaves
the reporter untouched (no resolution or transport work), for every input
including falsy ones; if the reporter is enabled and the input is falsy,
report rejects with the empty-input error. The disabled check runs first,
so disabled takes precedence over the empty-input check. -/
theorem report_disabled_precedence (r : Reporter) (err : Option RawError)
    (skip : Option Nat) (ua href : String) (sr : Except String (List StackFrame)) :
    (r.disabled = true → report r err skip ua href sr = (.resolvedNull, r)) ∧
    (r.disabled = false → rawErrorTruthy err = false →
      report r err skip ua href sr = (.rejectedNoError "no error to report", r)) := by
  constructor
  · intro hd
    simp [report, hd]
  · intro hd hf
    simp [report, hd, hf]

/-- C1 witness: a disabled reporter resolves null on an empty input, and
the same reporter enabled rejects with the empty-input error. -/
theorem report_disabled_precedence_witness :
    report rDisabled none none "agent" "https://page" (.error "x") = (.resolvedNull, rDisabled) ∧
    report rEnabled none none "agent" "https://page" (.error "x") =
      (.rejectedNoError "no error to report", rEnabled) :=
  ⟨(report_disabled_precedence rDisabled none none "agent" "https://page" (.error "x")).1 rfl,
   (report_disabled_precedence rEnabled none none "agent" "https://page" (.error "x")).2 rfl rfl⟩

/-- C2: the HTTP transport classification: every status in 200..299
resolves with an object holding the payload message; status 429 rejects
with the distinguished rate-limit object (not a generic Error) and its
fixed message; any other nonzero status rejects with a generic Error
encoding the status code; status 0 (network failure, no status) rejects
with a generic Error carrying the network-error text. -/
theorem sendErrorPayload_classification (payload : Payload) (status : Nat) :
    (200 ≤ status → status < 300 →
      sendErrorPayload payload status = .resolved payload.message) ∧
    (status = 429 →
      sendErrorPayload payload status =
        .rejectedRateLimit "quota or rate limiting error on stackdriver report"
          "Http429FakeError") ∧
    ((status < 200 ∨ 300 ≤ status) → status ≠ 429 → status ≠ 0 →
      sendErrorPayload payload status =
        .rejectedError (toString status ++ " http response on stackdriver report")) ∧
    (status = 0 →
      sendErrorPayload payload status =
        .rejectedError "network error on stackdriver report") := by
  refine ⟨?_, ?_, ?_, ?_⟩
  · intro h1 h2
    unfold sendErrorPayload
    rw [if_pos ⟨h1, h2⟩]
  · intro h
    subst h
    simp [sendErrorPayload]
  · intro hrange h429 h0
    unfold sendErrorPayload
    rw [if_neg (by omega), if_neg (by simp [h429]), if_pos (by simp [h0])]
  · intro h
    subst h
    simp [sendErrorPayload]

/-- C2 witness: the classification at statuses 204, 429, 500 and 0. -/
theorem sendErrorPayload_classification_witness :
    sendErrorPayload testPayload 204 = .resolved testPayload.message ∧
    sendErrorPayload testPayload 429 =
      .rejectedRateLimit "quota or rate limiting error on stackdriver report"
        "Http429FakeError" ∧
    sendErrorPayload testPayload 500 =
      .rejectedError (toString 500 ++ " http response on stackdriver report") ∧
    sendErrorPayload testPayload 0 = .rejectedError "network error on stackdriver report" :=
  ⟨(sendErrorPayload_classification testPayload 204).1 (by decide) (by decide),
   (sendErrorPayload_classification testPayload 429).2.1 rfl,
   (sendErrorPayload_classification testPayload 500).2.2.1 (Or.inr (by decide))
     (by decide) (by decide),
   (sendErrorPayload_classification testPayload 0).2.2.2 rfl⟩

/-- C8: start throws its synchronous configuration error exactly when no
usable delivery mechanism is present, a usable mechanism being a truthy
API key together with a truthy project id, or a truthy target url, or a
custom reporting function; when one is present start returns the reporter
without throwing. -/
theorem start_throws_iff (config : Config) :
    startThrows config = true ↔
      ¬ ((truthyStr config.key = true ∧ truthyStr config.projectId = true) ∨
          truthyStr config.targetUrl = true ∨
          config.customReportingFunction = true) := by
  unfold startThrows start
  cases hk : truthyStr config.key <;> cases hp : truthyStr config.projectId <;>
    cases hu : truthyStr config.targetUrl <;> cases hf : config.customReportingFunction <;>
      simp [hk, hp, hu, hf]

/-- C3: when stack resolution fails with any reason, resolveError fulfills
(never rejects) with the degraded message built from the reason, the raw
error string form and the file, line and column fields carried by the raw
error itself, together with the empty location; and an enabled report on
the HTTP path still proceeds to transport with that degraded message and
the empty report location. -/
theorem resolveError_degraded_never_rejects
    (err : ExnLike) (fi : Nat) (bp : Option String) (reason : String)
    (r : Reporter) (e0 : RawError) (skip : Option Nat) (ua href : String)
    (hd : r.disabled = false) (ht : rawErrorTruthy (some e0) = true)
    (hcf : r.customReportingFunction = false) (htr : r.customMessageTranslator = none) :
    resolveError err fi bp (.error reason) =
      .ok ("Error extracting stack trace: " ++ reason ++ "\n" ++ err.str ++ "\n" ++
        "    (" ++ err.file ++ ":" ++ err.line ++ ":" ++ err.column ++ ")") .empty ∧
    report r (some e0) skip ua href (.error reason) =
      (.httpSent (reportUrlOf r)
        { serviceContext := r.serviceContext
          context :=
            { r.context with
              httpRequest := some { userAgent := ua, url := href }
              reportLocation := .empty }
          message := "Error extracting stack trace: " ++ reason ++ "\n" ++
            (promote e0).str ++ "\n" ++ "    (" ++ (promote e0).file ++ ":" ++
            (promote e0).line ++ ":" ++ (promote e0).column ++ ")" },
       { r with context :=
          { r.context with
            httpRequest := some { userAgent := ua, url := href }
            reportLocation := .empty } }) := by
  refine ⟨rfl, ?_⟩
  rw [report_eq_of_ok_http r e0 skip ua href (.error reason) _ _ hd ht hcf rfl]
  simp [applyTranslator, htr]

/-- C3 witness: a failing resolution with a concrete reason degrades to the
template message and the report still reaches the HTTP transport with it. -/
theorem resolveError_degraded_never_rejects_witness :
    resolveError exnBoom 1 (some "base") (.error "parse failed") =
      .ok ("Error extracting stack trace: " ++ "parse failed" ++ "\n" ++ exnBoom.str ++ "\n" ++
        "    (" ++ exnBoom.file ++ ":" ++ exnBoom.line ++ ":" ++ exnBoom.column ++ ")") .empty ∧
    report rEnabled (some (.exn exnBoom)) none "agent" "https://page" (.error "parse failed") =
      (.httpSent (reportUrlOf rEnabled)
        { serviceContext := rEnabled.serviceContext
          context :=
            { rEnabled.context with
              httpRequest := some { userAgent := "agent", url := "https://page" }
              reportLocation := .empty }
          message := "Error extracting stack trace: " ++ "parse failed" ++ "\n" ++
            (promote (.exn exnBoom)).str ++ "\n" ++ "    (" ++ (promote (.exn exnBoom)).file ++
            ":" ++ (promote (.exn exnBoom)).line ++ ":" ++ (promote (.exn exnBoom)).column ++ ")" },
       { rEnabled with context :=
          { rEnabled.context with
            httpRequest := some { userAgent := "agent", url := "https://page" }
            reportLocation := .empty } }) :=
  resolveError_degraded_never_rejects exnBoom 1 (some "base") "parse failed"
    rEnabled (.exn exnBoom) none "agent" "https://page" rfl rfl rfl rfl

/-- C4 counterexample: for an exception-like input the first kept frame
index is 0, not the claimed skipLocalFrames default of 1, and it stays 0
even when skipLocalFrames is supplied; consequently the message of a
report of an exception keeps frame 0, which the claim says would be
dropped under the default of 1. -/
theorem report_skip_frames_counterexample :
    firstFrameIndexOf (.exn exnBoom) none = 0 ∧
    firstFrameIndexOf (.exn exnBoom) none ≠ 1 ∧
    firstFrameIndexOf (.exn exnBoom) (some 2) = 0 ∧
    (outcomePayload
        (report rEnabled (some (.exn exnBoom)) none "agent" "https://page"
          (.ok [frameA, frameB])).1).map Payload.message = some msgAB := by
  refine ⟨rfl, by decide, rfl, ?_⟩
  rfl

/-- C4 amended: the first kept frame index defaults to 1 when the raw
input was a string, a nonzero caller-supplied skipLocalFrames overriding
it (a supplied 0 is falsy and still yields 1); for an exception-like
input it is always 0 and skipLocalFrames is ignored. -/
theorem firstFrameIndexOf_amended (s : String) (e : ExnLike) (skip : Option Nat) (n : Nat) :
    firstFrameIndexOf (.str s) none = 1 ∧
    firstFrameIndexOf (.str s) (some 0) = 1 ∧
    (n ≠ 0 → firstFrameIndexOf (.str s) (some n) = n) ∧
    firstFrameIndexOf (.exn e) skip = 0 := by
  refine ⟨rfl, rfl, ?_, rfl⟩
  intro hn
  simp [firstFrameIndexOf, jsOrNat, hn]

/-- C4 amended witness: the index at concrete inputs. -/
theorem firstFrameIndexOf_amended_witness :
    firstFrameIndexOf (.str "boom") none = 1 ∧
    firstFrameIndexOf (.str "boom") (some 0) = 1 ∧
    firstFrameIndexOf (.str "boom") (some 2) = 2 ∧
    firstFrameIndexOf (.exn exnBoom) (some 5) = 0 :=
  ⟨(firstFrameIndexOf_amended "boom" exnBoom (some 5) 2).1,
   (firstFrameIndexOf_amended "boom" exnBoom (some 5) 2).2.1,
   (firstFrameIndexOf_amended "boom" exnBoom (some 5) 2).2.2.1 (by decide),
   (firstFrameIndexOf_amended "boom" exnBoom (some 5) 2).2.2.2⟩

/-- C5: on successful stack resolution with the frame at the first kept
index present, the produced message is the error string form followed by
one line per frame from that index on, each line formatted as
four spaces, at, the function name or the anonymous sentinel, and the
file, line and column in parentheses, all joined with the literal
two-character sequence backslash-n. -/
theorem resolveError_success_message (err : ExnLike) (fi : Nat) (bp : Option String)
    (stack : List StackFrame) (frame : StackFrame) (h : stack[fi]? = some frame) :
    ∃ location, resolveError err fi bp (.ok stack) =
      .ok (String.intercalate "\\n" (err.str ::
        (stack.drop fi).map (fun f =>
          "    at " ++ functionNameOrAnonymous f.functionName ++ " (" ++ f.fileName ++ ":" ++
            toString f.lineNumber ++ ":" ++ toString f.columnNumber ++ ")"))) location := by
  refine ⟨.loc
    { filePath := locationFilePath bp frame.fileName
      lineNumber := frame.lineNumber
      functionName := functionNameOrAnonymous frame.functionName }, ?_⟩
  simp only [resolveError, h]
  rfl

/-- C5 witness: the message over a concrete two-frame stack with first
kept index 1. -/
theorem resolveError_success_message_witness :
    ∃ location, resolveError exnBoom 1 (some "base") (.ok [frameA, frameB]) =
      .ok (String.intercalate "\\n" (exnBoom.str ::
        ([frameA, frameB].drop 1).map (fun f =>
          "    at " ++ functionNameOrAnonymous f.functionName ++ " (" ++ f.fileName ++ ":" ++
            toString f.lineNumber ++ ":" ++ toString f.columnNumber ++ ")"))) location :=
  resolveError_success_message exnBoom 1 (some "base") [frameA, frameB] frameB rfl

/-- C6: on successful stack resolution the report location is derived from
the frame at the first kept index: its filePath is the base path, a slash,
then the frame file path split on slash with the first three segments
discarded and any query-string suffix stripped from each remaining
segment, rejoined with slash; its line number and function name come from
that same frame, the anonymous sentinel substituting for an absent
function name. -/
theorem resolveError_success_location (err : ExnLike) (fi : Nat) (bp : String)
    (stack : List StackFrame) (frame : StackFrame) (h : stack[fi]? = some frame) :
    ∃ message, resolveError err fi (some bp) (.ok stack) =
      .ok message (.loc
        { filePath := bp ++ "/" ++ String.intercalate "/"
            (((jsSplit '/' frame.fileName).drop 3).map (fun seg => (jsSplit '?' seg).headD ""))
          lineNumber := frame.lineNumber
          functionName := functionNameOrAnonymous frame.functionName }) := by
  refine ⟨String.intercalate "\\n" (err.str :: (stack.drop fi).map formatFrameLine), ?_⟩
  simp [resolveError, h, locationFilePath, jsStr]

/-- C6 witness: the location over a concrete stack whose frame 1 has no
function name, and frame 0 a query string to strip. -/
theorem resolveError_success_location_witness :
    ∃ message, resolveError exnBoom 0 (some "base") (.ok [frameA, frameB]) =
      .ok message (.loc
        { filePath := "base" ++ "/" ++ String.intercalate "/"
            (((jsSplit '/' frameA.fileName).drop 3).map (fun seg => (jsSplit '?' seg).headD ""))
          lineNumber := frameA.lineNumber
          functionName := functionNameOrAnonymous frameA.functionName }) :=
  resolveError_success_location exnBoom 0 "base" [frameA, frameB] frameA rfl

/-- C7: an enabled report uses exactly one delivery path: the custom
reporting function whenever one is configured, otherwise HTTP to the
target url when truthy, otherwise to the API-key-derived url. The custom
function receives the payload without a reportLocation injected (the slot
keeps whatever the shared context already held), while the HTTP path
writes the resolved location into the context before sending. -/
theorem report_delivery_priority (r : Reporter) (e0 : RawError) (skip : Option Nat)
    (ua href : String) (sr : Except String (List StackFrame))
    (message : String) (location : JsLocation)
    (hd : r.disabled = false) (ht : rawErrorTruthy (some e0) = true)
    (htr : r.customMessageTranslator = none)
    (hres : resolveError (promote e0) (firstFrameIndexOf e0 skip) r.basePath sr =
      .ok message location) :
    (r.customReportingFunction = true →
      (report r (some e0) skip ua href sr).1 =
        .customDelivered
          { serviceContext := r.serviceContext
            context := { r.context with httpRequest := some { userAgent := ua, url := href } }
            message := message }) ∧
    (r.customReportingFunction = false →
      (report r (some e0) skip ua href sr).1 =
        .httpSent
          (if truthyStr r.targetUrl then jsStr r.targetUrl
           else baseAPIUrl ++ jsStr r.projectId ++ "/events:report?key=" ++ jsStr r.apiKey)
          { serviceContext := r.serviceContext
            context :=
              { r.context with
                httpRequest := some { userAgent := ua, url := href }
                reportLocation := location }
            message := message }) := by
  constructor
  · intro hcf
    rw [report_eq_of_ok_custom r e0 skip ua href sr message location hd ht hcf hres]
    simp [applyTranslator, htr]
  · intro hcf
    rw [report_eq_of_ok_http r e0 skip ua href sr message location hd ht hcf hres]
    simp [applyTranslator, htr, reportUrlOf]

/-- C7 witness: the reporter with a custom function delivers through it
and its payload keeps the previous reportLocation slot; the reporter
without one posts to the API-key-derived url with the location written. -/
theorem report_delivery_priority_witness :
    (report rCustom (some (.exn exnBoom)) none "agent" "https://page"
      (.ok [frameA, frameB])).1 =
      .customDelivered
        { serviceContext := rCustom.serviceContext
          context := { rCustom.context with
            httpRequest := some { userAgent := "agent", url := "https://page" } }
          message := msgAB } ∧
    (report rEnabled (some (.exn exnBoom)) none "agent" "https://page"
      (.ok [frameA, frameB])).1 =
      .httpSent
        (if truthyStr rEnabled.targetUrl then jsStr rEnabled.targetUrl
         else baseAPIUrl ++ jsStr rEnabled.projectId ++ "/events:report?key=" ++
           jsStr rEnabled.apiKey)
        { serviceContext := rEnabled.serviceContext
          context :=
            { rEnabled.context with
              httpRequest := some { userAgent := "agent", url := "https://page" }
              reportLocation := locA }
          message := msgAB } :=
  ⟨(report_delivery_priority rCustom (.exn exnBoom) none "agent" "https://page"
      (.ok [frameA, frameB]) msgAB locA rfl rfl rfl rfl).1 rfl,
   (report_delivery_priority rEnabled (.exn exnBoom) none "agent" "https://page"
      (.ok [frameA, frameB]) msgAB locA rfl rfl rfl rfl).2 rfl⟩

/-- Helper: report never changes the user field of the shared context, and
any payload it hands to a delivery path carries the current user. -/
theorem report_preserves_user (r : Reporter) (err : Option RawError) (skip : Option Nat)
    (ua href : String) (sr : Except String (List StackFrame)) :
    (report r err skip ua href sr).2.context.user = r.context.user ∧
    ((outcomePayload (report r err skip ua href sr).1).all
      (fun pay => pay.context.user == r.context.user)) = true := by
  cases hd : r.disabled with
  | true => simp [report, hd, outcomePayload]
  | false =>
    cases ht : rawErrorTruthy err with
    | false => simp [report, hd, ht, outcomePayload]
    | true =>
      cases err with
      | none => simp [rawErrorTruthy] at ht
      | some e0 =>
        cases hres : resolveError (promote e0) (firstFrameIndexOf e0 skip) r.basePath sr with
        | thrown =>
          rw [report_eq_of_thrown r e0 skip ua href sr hd ht hres]
          simp [outcomePayload]
        | ok message location =>
          cases hcf : r.customReportingFunction with
          | true =>
            rw [report_eq_of_ok_custom r e0 skip ua href sr message location hd ht hcf hres]
            simp [outcomePayload]
          | false =>
            rw [report_eq_of_ok_http r e0 skip ua href sr message location hd ht hcf hres]
            simp [outcomePayload]

/-- C9: setUser writes only the user field of the context (the other
context fields and every other reporter field are unchanged); the written
value is carried by the payloads of two successive reports and still holds
in the shared context afterwards; a later setUser of the unset value
reverts subsequent report payloads to an unset user. -/
theorem setUser_persistence (r : Reporter) (u : Option String)
    (err1 err2 : Option RawError) (skip1 skip2 : Option Nat)
    (ua1 href1 ua2 href2 : String) (sr1 sr2 : Except String (List StackFrame)) :
    ((setUser r u).context.user = u ∧
     (setUser r u).context.httpRequest = r.context.httpRequest ∧
     (setUser r u).context.reportLocation = r.context.reportLocation ∧
     { setUser r u with context := r.context } = r) ∧
    (((outcomePayload (report (setUser r u) err1 skip1 ua1 href1 sr1).1).all
        (fun pay => pay.context.user == u)) = true ∧
     (report (setUser r u) err1 skip1 ua1 href1 sr1).2.context.user = u) ∧
    (((outcomePayload (report (report (setUser r u) err1 skip1 ua1 href1 sr1).2
          err2 skip2 ua2 href2 sr2).1).all
        (fun pay => pay.context.user == u)) = true ∧
     (report (report (setUser r u) err1 skip1 ua1 href1 sr1).2
        err2 skip2 ua2 href2 sr2).2.context.user = u) ∧
    ((setUser (report (report (setUser r u) err1 skip1 ua1 href1 sr1).2
        err2 skip2 ua2 href2 sr2).2 none).context.user = none ∧
     ((outcomePayload (report (setUser (report (report (setUser r u) err1 skip1 ua1 href1 sr1).2
          err2 skip2 ua2 href2 sr2).2 none) err1 skip1 ua1 href1 sr1).1).all
        (fun pay => pay.context.user == (none : Option String))) = true) := by
  have h1 := report_preserves_user (setUser r u) err1 skip1 ua1 href1 sr1
  have h2 := report_preserves_user (report (setUser r u) err1 skip1 ua1 href1 sr1).2
    err2 skip2 ua2 href2 sr2
  have h3 := report_preserves_user
    (setUser (report (report (setUser r u) err1 skip1 ua1 href1 sr1).2
      err2 skip2 ua2 href2 sr2).2 none) err1 skip1 ua1 href1 sr1
  have hu1 : (setUser r u).context.user = u := rfl
  rw [hu1] at h1
  rw [h1.1] at h2
  refine ⟨⟨rfl, rfl, rfl, rfl⟩, ⟨h1.2, h1.1⟩, ⟨h2.2, h2.1⟩, ⟨rfl, ?_⟩⟩
  exact h3.2

/-- C10: for an enabled report on a truthy input, every payload handed to
a delivery path has as its context exactly the reporter shared context as
left by the call (the payload aliases the shared object); the httpRequest
slot of the shared context is overwritten before resolution and stays
overwritten even when the report rejects through a thrown resolution; and
on the HTTP path the reportLocation written into the shared context
remains there and is still present after a later report that rejects. -/
theorem report_context_shared_mutation (r : Reporter) (e0 : RawError) (skip : Option Nat)
    (ua href : String) (sr : Except String (List StackFrame))
    (hd : r.disabled = false) (ht : rawErrorTruthy (some e0) = true) :
    ((outcomePayload (report r (some e0) skip ua href sr).1).all
      (fun pay => pay.context == (report r (some e0) skip ua href sr).2.context)) = true ∧
    (report r (some e0) skip ua href sr).2.context.httpRequest =
      some { userAgent := ua, url := href } ∧
    (∀ message location, r.customReportingFunction = false →
      resolveError (promote e0) (firstFrameIndexOf e0 skip) r.basePath sr =
        .ok message location →
      (report r (some e0) skip ua href sr).2.context.reportLocation = location ∧
      ∀ (e1 : RawError) (skip1 : Option Nat) (ua1 href1 : String)
        (sr1 : Except String (List StackFrame)),
        rawErrorTruthy (some e1) = true →
        resolveError (promote e1) (firstFrameIndexOf e1 skip1)
          ((report r (some e0) skip ua href sr).2).basePath sr1 = .thrown →
        (report (report r (some e0) skip ua href sr).2
          (some e1) skip1 ua1 href1 sr1).1 = .rejectedThrown ∧
        (report (report r (some e0) skip ua href sr).2
          (some e1) skip1 ua1 href1 sr1).2.context.reportLocation = location) := by
  refine ⟨?_, ?_, ?_⟩
  · cases hres : resolveError (promote e0) (firstFrameIndexOf e0 skip) r.basePath sr with
    | thrown =>
      rw [report_eq_of_thrown r e0 skip ua href sr hd ht hres]
      simp [outcomePayload]
    | ok message location =>
      cases hcf : r.customReportingFunction with
      | true =>
        rw [report_eq_of_ok_custom r e0 skip ua href sr message location hd ht hcf hres]
        simp [outcomePayload]
      | false =>
        rw [report_eq_of_ok_http r e0 skip ua href sr message location hd ht hcf hres]
        simp [outcomePayload]
  · cases hres : resolveError (promote e0) (firstFrameIndexOf e0 skip) r.basePath sr with
    | thrown =>
      rw [report_eq_of_thrown r e0 skip ua href sr hd ht hres]
    | ok message location =>
      cases hcf : r.customReportingFunction with
      | true =>
        rw [report_eq_of_ok_custom r e0 skip ua href sr message location hd ht hcf hres]
      | false =>
        rw [report_eq_of_ok_http r e0 skip ua href sr message location hd ht hcf hres]
  · intro message location hcf hres
    have hr1 := report_eq_of_ok_http r e0 skip ua href sr message location hd ht hcf hres
    refine ⟨by rw [hr1], ?_⟩
    intro e1 skip1 ua1 href1 sr1 ht1 hres1
    simp only [hr1] at hres1 ⊢
    have hr2 := report_eq_of_thrown
      { r with context :=
          { r.context with
            httpRequest := some { userAgent := ua, url := href }
            reportLocation := location } }
      e1 skip1 ua1 href1 sr1 hd ht1 hres1
    rw [hr2]
    exact ⟨rfl, rfl⟩

/-- C10 witness: a concrete HTTP-path report followed by a report whose
resolution rejects. -/
theorem report_context_shared_mutation_witness :
    ((outcomePayload (report rEnabled (some (.exn exnBoom)) none "agent" "https://page"
        (.ok [frameA, frameB])).1).all
      (fun pay => pay.context == (report rEnabled (some (.exn exnBoom)) none "agent"
        "https://page" (.ok [frameA, frameB])).2.context)) = true ∧
    (report rEnabled (some (.exn exnBoom)) none "agent" "https://page"
      (.ok [frameA, frameB])).2.context.httpRequest =
      some { userAgent := "agent", url := "https://page" } ∧
    (report rEnabled (some (.exn exnBoom)) none "agent" "https://page"
      (.ok [frameA, frameB])).2.context.reportLocation = locA ∧
    (report (report rEnabled (some (.exn exnBoom)) none "agent" "https://page"
        (.ok [frameA, frameB])).2 (some (.exn exnBoom)) none "a2" "h2" (.ok [])).1 =
      .rejectedThrown ∧
    (report (report rEnabled (some (.exn exnBoom)) none "agent" "https://page"
        (.ok [frameA, frameB])).2 (some (.exn exnBoom)) none "a2" "h2"
        (.ok [])).2.context.reportLocation = locA := by
  have T := report_context_shared_mutation rEnabled (.exn exnBoom) none "agent" "https://page"
    (.ok [frameA, frameB]) rfl rfl
  have T2 := T.2.2 msgAB locA rfl rfl
  have T3 := T2.2 (.exn exnBoom) none "a2" "h2" (.ok []) rfl rfl
  exact ⟨T.1, T.2.1, T2.1, T3.1, T3.2⟩

end StackdriverErrors
